import Mathlib

/-!
# The dart-sqlite native bridge (`src/dart_sqlite.cc`)

A shallow embedding of the native functions `Bind`, `Step`, `get_column_value`,
`get_last_row`, `PrepareStatement`, `CloseStatement`, `finalize_statement` and `Close`.

The SQL engine and the host runtime are collaborators of the bridge, reached only through
their C interfaces.  They are modelled as an explicit `World`:

* the engine keeps a table of connections and a table of statements; a handle is an index into
  its table (the C code passes addresses), and a slot is never reused.  Every engine call is
  recorded against the statement it names (`bindCalls`, `finalizeCalls`), also when that
  statement has been finalized before;
* the answers the engine computes from SQL (compile results, the status, message and
  modified-row count of each step, the close status) are fields of the tables, so that the
  theorems quantify over every possible answer.  A step never answers `SQLITE_OK`: the
  statuses of `sqlite3_step` are row, finished, busy and the error codes (`sqlite3.h`);
* `sqlite3.h` leaves every use of a finalized statement undefined.  What `sqlite3_next_stmt`
  answers when it is asked with one is read from released memory: it is the field `staleNext`
  of the world, fixed by no contract;
* the host keeps the weak persistent handles and the lines written to `stderr`, and decides
  for which proxy objects it refuses a weak handle.

Conventions of the embedding:

* `Throw` (lines 58-68) raises a host exception through `Dart_ThrowException`, which unwinds
  the native call: a native function that reaches `Throw` ends there, with outcome
  `Outcome.throw` and the world as it is at that point;
* the two `while` loops (`Step`, `Close`) take fuel; the theorems give the fuel that suffices;
* a write past a buffer the bridge allocated, and the use of a variable no call has written,
  end the call with `Outcome.undefined`;
* allocations (`sqlite3_malloc`, `Dart_NewList`, `Dart_NewTypedData`) succeed;
* the loop counters `i`, `j` and `count` are C `int`s that count list elements, bytes or
  statements held in memory; they are natural numbers here.  The lengths that the code
  narrows to `int` when it passes them to the engine (`strlen(result)`, `len`) go through
  `toCInt`.
-/

namespace DartSqlite

/-! ## Constants of `sqlite3.h` -/

abbrev SQLITE_OK : Int := 0
abbrev SQLITE_BUSY : Int := 5
abbrev SQLITE_MISUSE : Int := 21
abbrev SQLITE_RANGE : Int := 25
abbrev SQLITE_ROW : Int := 100
abbrev SQLITE_DONE : Int := 101

abbrev SQLITE_INTEGER : Int := 1
abbrev SQLITE_FLOAT : Int := 2
abbrev SQLITE_TEXT : Int := 3
abbrev SQLITE_BLOB : Int := 4
abbrev SQLITE_NULL : Int := 5

/-! ## Host values -/

/-- A host value as `Bind` can tell it apart with `Dart_IsInteger`, `Dart_IsDouble`,
`Dart_IsNull`, `Dart_IsString` and `Dart_GetTypeOfTypedData`.  A double is its 64-bit pattern,
a string is the sequence of code units of its C-string (UTF-8) form, `other` is any object
of another class. -/
inductive DartValue where
  | integer (n : Int)
  | double (bits : Nat)
  | null
  | string (units : List UInt8)
  | byteData (bytes : List UInt8)
  | other (tag : Nat)
  deriving DecidableEq

/-- The second argument of `Bind`: a host list, or some object that is not a list. -/
inductive DartArgs where
  | list (values : List DartValue)
  | notAList (object : DartValue)
  deriving DecidableEq

/-- What a native function hands back through `DART_RETURN`. -/
inductive Returned where
  | null
  | integer (n : Int)
  | row (values : List DartValue)
  deriving DecidableEq

/-- The two exception classes the bridge raises: `Throw(message)` builds
`SqliteException._internal(message)`, and `PrepareStatement` builds
`SqliteSyntaxException._internal(message, sql)`. -/
inductive Failure where
  | sqliteException (message : String)
  | sqliteSyntaxException (message : String) (sql : List UInt8)
  deriving DecidableEq

/-! ## Engine tables -/

/-- A value held by the engine: a bound parameter or a column of the current row. -/
inductive Cell where
  | integer (n : Int)
  | float (bits : Nat)
  | text (units : List UInt8)
  | blob (bytes : List UInt8)
  | null
  deriving DecidableEq

/-- What one call of `sqlite3_step` answers: its status, which is never `SQLITE_OK`, the error
message the connection holds afterwards, and the modified-row count when the step completed
a write. -/
structure StepAnswer where
  status : Int
  errmsg : String
  changes : Option Int
  nonzero : status ≠ 0

/-- What compiling fixes about a statement: the number of placeholders and of columns,
whether it is read-only (`sqlite3_stmt_readonly`), the row it yields from its bindings, and
the answer of each successive `sqlite3_step`. -/
structure Shape where
  paramCount : Nat
  columnCount : Nat
  readonly : Int
  result : List Cell → List Cell
  script : Nat → StepAnswer

/-- One slot of the engine's statement table. -/
structure Stmt where
  db : Nat
  shape : Shape
  bindings : List Cell
  pc : Nat
  current : List Cell
  rc : Int
  live : Bool
  bindCalls : Nat
  finalizeCalls : Nat

/-- What `sqlite3_prepare_v2` answers for one SQL text. -/
structure CompileAnswer where
  status : Int
  errmsg : String
  shape : Shape

/-- One slot of the engine's connection table. -/
structure Db where
  compile : List UInt8 → CompileAnswer
  errmsg : String
  changes : Int
  closeStatus : Int
  isOpen : Bool

/-! ## Bridge and host tables -/

/-- The `statement_peer` struct (lines 42-46), with a mark set by `sqlite3_free`. -/
structure Peer where
  db : Nat
  stmt : Nat
  finalizer : Option Nat
  freed : Bool
  deriving DecidableEq

/-- A weak persistent handle of the host: the proxy object it watches, the peer handed to the
callback `finalize_statement`, and whether it is still registered. -/
structure WeakHandle where
  object : Nat
  peer : Nat
  registered : Bool
  deriving DecidableEq

/-- The two lines the bridge writes to `stderr` (lines 113 and 131). -/
inductive Warning where
  | statementsStillOpen (count : Nat)
  | notClosedBeforeGc
  deriving DecidableEq

/-- Engine tables, bridge peers, host weak handles, `stderr`, the static flag `warned` of
`finalize_statement`, the proxies for which the host refuses a weak handle (with the
message of the error handle), and what `sqlite3_next_stmt` finds when it is asked with a
finalized statement. -/
structure World where
  dbs : List Db
  stmts : List Stmt
  peers : List Peer
  weak : List WeakHandle
  stderr : List Warning
  warned : Bool
  weakRefusal : Nat → Option String
  staleNext : Nat → Option Nat

/-- Behaviour the C language leaves undefined. -/
inductive Undefined where
  | badHandle
  | uninitialisedRead
  | heapOverflow (capacity index : Nat)
  deriving DecidableEq

/-- How a native call ends, and the world it leaves. -/
inductive Outcome where
  | ret (w : World) (value : Returned)
  | throw (w : World) (failure : Failure)
  | undefined (w : World) (why : Undefined)

/-- The world a call leaves behind. -/
def Outcome.world : Outcome → World
  | .ret w _ => w
  | .throw w _ => w
  | .undefined w _ => w

/-- The value returned, when the call returned. -/
def Outcome.returned : Outcome → Option Returned
  | .ret _ v => some v
  | _ => none

/-- The exception raised, when the call raised one. -/
def Outcome.failure : Outcome → Option Failure
  | .throw _ f => some f
  | _ => none

/-- The undefined behaviour reached, when the call reached one. -/
def Outcome.fault : Outcome → Option Undefined
  | .undefined _ u => some u
  | _ => none

/-- Replace slot `i` of a table by `f` of it. -/
def modifyAt {α : Type} (l : List α) (i : Nat) (f : α → α) : List α :=
  match l[i]? with
  | some a => l.set i (f a)
  | none => l

/-! ## C helpers -/

/-- Length of a C string: the offset of its first zero byte. -/
def strlen (buf : List UInt8) : Nat :=
  (buf.takeWhile (fun b => b != 0)).length

/-- Conversion of a `size_t` or `intptr_t` to `int` (two's complement, 32 bits). -/
def toCInt (n : Nat) : Int :=
  if n % 2 ^ 32 < 2 ^ 31 then ((n % 2 ^ 32 : Nat) : Int) else ((n % 2 ^ 32 : Nat) : Int) - 2 ^ 32

/-- The host call `Dart_StringToCString`: the code units followed by a terminator. -/
def Dart_StringToCString (units : List UInt8) : List UInt8 :=
  units ++ [0]

/-- The host call `Dart_NewStringFromCString`: the code units before the terminator. -/
def Dart_NewStringFromCString (buf : List UInt8) : List UInt8 :=
  buf.takeWhile (fun b => b != 0)

/-- The host call `Dart_IntegerToInt64`: the value when it fits 64 bits; otherwise the call
fails and leaves `result` unwritten. -/
def Dart_IntegerToInt64 (n : Int) : Option Int :=
  if -(2 ^ 63) ≤ n ∧ n < 2 ^ 63 then some n else none

/-! ## Engine calls -/

/-- The engine call `sqlite3_errmsg`. -/
def sqlite3_errmsg (w : World) (db : Nat) : String :=
  match w.dbs[db]? with
  | some d => d.errmsg
  | none => ""

/-- The engine call `sqlite3_bind_parameter_count`. -/
def sqlite3_bind_parameter_count (w : World) (stmt : Nat) : Nat :=
  match w.stmts[stmt]? with
  | some s => s.shape.paramCount
  | none => 0

/-- Common part of the `sqlite3_bind_*` calls: record the call; store `c` as parameter `i`
(counted from 1) and answer `SQLITE_OK`, or answer `SQLITE_RANGE` when `i` is no parameter. -/
def bindCell (w : World) (stmt i : Nat) (c : Cell) : World × Int :=
  match w.stmts[stmt]? with
  | none => (w, SQLITE_MISUSE)
  | some s =>
    if 1 ≤ i ∧ i ≤ s.shape.paramCount then
      let s1 : Stmt := { s with bindings := s.bindings.set (i - 1) c, bindCalls := s.bindCalls + 1 }
      ({ w with stmts := w.stmts.set stmt s1 }, SQLITE_OK)
    else
      let s1 : Stmt := { s with bindCalls := s.bindCalls + 1 }
      ({ w with stmts := w.stmts.set stmt s1 }, SQLITE_RANGE)

/-- The engine call `sqlite3_bind_int64`. -/
def sqlite3_bind_int64 (w : World) (stmt i : Nat) (v : Int) : World × Int :=
  bindCell w stmt i (.integer v)

/-- The engine call `sqlite3_bind_double`. -/
def sqlite3_bind_double (w : World) (stmt i : Nat) (bits : Nat) : World × Int :=
  bindCell w stmt i (.float bits)

/-- The engine call `sqlite3_bind_null`. -/
def sqlite3_bind_null (w : World) (stmt i : Nat) : World × Int :=
  bindCell w stmt i .null

/-- The engine call `sqlite3_bind_text` with `SQLITE_TRANSIENT`: the engine copies `n` bytes
from `buf`, or the bytes before the terminator when `n` is negative. -/
def sqlite3_bind_text (w : World) (stmt i : Nat) (buf : List UInt8) (n : Int) : World × Int :=
  bindCell w stmt i (.text (if n < 0 then buf.takeWhile (fun b => b != 0) else buf.take n.toNat))

/-- The engine call `sqlite3_bind_blob`: the parameter takes the first `n` bytes of `buf`. -/
def sqlite3_bind_blob (w : World) (stmt i : Nat) (buf : List UInt8) (n : Int) : World × Int :=
  bindCell w stmt i (.blob (buf.take n.toNat))

/-- The engine call `sqlite3_malloc(n)` for a byte buffer: `n` bytes, none of them read by the
bridge before it writes them. -/
def sqlite3_malloc (n : Nat) : List UInt8 :=
  List.replicate n 0

/-! ## `Bind` (lines 180-233) -/

/-- The function `Throw` (lines 58-68). -/
def Throw (message : String) : Failure :=
  .sqliteException message

/-- The function `CheckSqlError` (lines 70-72): the failure it raises, if it raises. -/
def CheckSqlError (w : World) (db : Nat) (result : Int) : Option Failure :=
  if result ≠ 0 then some (Throw (sqlite3_errmsg w db)) else none

/-- The function `CheckDartError` (lines 74-77) on the result of a host call: an error handle
is raised with its message, any other handle is passed on. -/
def CheckDartError {α : Type} (result : Except String α) : Except Failure α :=
  match result with
  | .error message => .error (Throw message)
  | .ok a => .ok a

/-- The copy loop of lines 222-224: `result[j] = data[j]` for `j = 0 .. len - 1`, where a
write at or past the capacity of `result` is a heap overflow. -/
def copyBytes : List UInt8 → Nat → List UInt8 → Except Undefined (List UInt8)
  | result, _, [] => .ok result
  | result, j, b :: data =>
    if j < result.length then copyBytes (result.set j b) (j + 1) data
    else .error (.heapOverflow result.length j)

/-- The loop of lines 193-231 from index `i` on, over the arguments not yet bound.
`count` is the length of the whole argument list. -/
def bindLoop (statement : Peer) (count : Nat) : World → Nat → List DartValue → Outcome
  | w, _, [] => .ret w .null
  | w, i, value :: rest =>
    match value with
    | .integer n =>
      match Dart_IntegerToInt64 n with
      | none => .undefined w .uninitialisedRead
      | some result =>
        let r := sqlite3_bind_int64 w statement.stmt (i + 1) result
        match CheckSqlError r.1 statement.db r.2 with
        | some f => .throw r.1 f
        | none => bindLoop statement count r.1 (i + 1) rest
    | .double bits =>
      let r := sqlite3_bind_double w statement.stmt (i + 1) bits
      match CheckSqlError r.1 statement.db r.2 with
      | some f => .throw r.1 f
      | none => bindLoop statement count r.1 (i + 1) rest
    | .null =>
      let r := sqlite3_bind_null w statement.stmt (i + 1)
      match CheckSqlError r.1 statement.db r.2 with
      | some f => .throw r.1 f
      | none => bindLoop statement count r.1 (i + 1) rest
    | .string units =>
      let result := Dart_StringToCString units
      let r := sqlite3_bind_text w statement.stmt (i + 1) result (toCInt (strlen result))
      match CheckSqlError r.1 statement.db r.2 with
      | some f => .throw r.1 f
      | none => bindLoop statement count r.1 (i + 1) rest
    | .byteData data =>
      match copyBytes (sqlite3_malloc count) 0 data with
      | .error u => .undefined w u
      | .ok result =>
        let r := sqlite3_bind_blob w statement.stmt (i + 1) result (toCInt data.length)
        match CheckSqlError r.1 statement.db r.2 with
        | some f => .throw r.1 f
        | none => bindLoop statement count r.1 (i + 1) rest
    | .other _ => .throw w (Throw "Invalid parameter type")

/-- The native function `Bind` (lines 180-233). -/
def Bind (w : World) (statement_handle : Nat) (args : DartArgs) : Outcome :=
  match w.peers[statement_handle]? with
  | none => .undefined w .badHandle
  | some statement =>
    match args with
    | .notAList _ => .throw w (Throw "args must be a List")
    | .list values =>
      if sqlite3_bind_parameter_count w statement.stmt ≠ values.length then
        .throw w (Throw "Number of arguments doesn't match number of placeholders")
      else bindLoop statement values.length w 0 values

/-! ## Reading a row: `get_column_value` and `get_last_row` (lines 235-281) -/

/-- A native helper ends without a value: it raised, or it reached undefined behaviour. -/
inductive Abort where
  | throw (failure : Failure)
  | undefined (why : Undefined)
  deriving DecidableEq

/-- Column `col` of the current row of a statement; SQL null when there is none. -/
def column (w : World) (stmt col : Nat) : Cell :=
  match w.stmts[stmt]? with
  | some s => s.current.getD col .null
  | none => .null

/-- The engine call `sqlite3_column_count`. -/
def sqlite3_column_count (w : World) (stmt : Nat) : Nat :=
  match w.stmts[stmt]? with
  | some s => s.shape.columnCount
  | none => 0

/-- The engine call `sqlite3_column_type`. -/
def sqlite3_column_type (w : World) (stmt col : Nat) : Int :=
  match column w stmt col with
  | .integer _ => SQLITE_INTEGER
  | .float _ => SQLITE_FLOAT
  | .text _ => SQLITE_TEXT
  | .blob _ => SQLITE_BLOB
  | .null => SQLITE_NULL

/-- The engine call `sqlite3_column_int64`, on a column that holds an integer. -/
def sqlite3_column_int64 (w : World) (stmt col : Nat) : Int :=
  match column w stmt col with
  | .integer n => n
  | _ => 0

/-- The engine call `sqlite3_column_double`, on a column that holds a float. -/
def sqlite3_column_double (w : World) (stmt col : Nat) : Nat :=
  match column w stmt col with
  | .float bits => bits
  | _ => 0

/-- The engine call `sqlite3_column_text`, on a column that holds text: a C string. -/
def sqlite3_column_text (w : World) (stmt col : Nat) : List UInt8 :=
  match column w stmt col with
  | .text units => units ++ [0]
  | _ => [0]

/-- The engine call `sqlite3_column_bytes`, on a column that holds a blob. -/
def sqlite3_column_bytes (w : World) (stmt col : Nat) : Nat :=
  match column w stmt col with
  | .blob bytes => bytes.length
  | .text units => units.length
  | _ => 0

/-- The engine call `sqlite3_column_blob`, on a column that holds a blob. -/
def sqlite3_column_blob (w : World) (stmt col : Nat) : List UInt8 :=
  match column w stmt col with
  | .blob bytes => bytes
  | _ => []

/-- The host call `Dart_NewTypedData(Dart_TypedData_kByteData, count)`. -/
def Dart_NewTypedData (count : Nat) : List UInt8 :=
  List.replicate count 0

/-- The function `get_column_value` (lines 235-272). -/
def get_column_value (w : World) (statement : Peer) (col : Nat) : Except Abort DartValue :=
  let ty := sqlite3_column_type w statement.stmt col
  if ty = SQLITE_INTEGER then .ok (.integer (sqlite3_column_int64 w statement.stmt col))
  else if ty = SQLITE_FLOAT then .ok (.double (sqlite3_column_double w statement.stmt col))
  else if ty = SQLITE_TEXT then
    .ok (.string (Dart_NewStringFromCString (sqlite3_column_text w statement.stmt col)))
  else if ty = SQLITE_BLOB then
    let count := sqlite3_column_bytes w statement.stmt col
    let result := Dart_NewTypedData count
    let binary_data := sqlite3_column_blob w statement.stmt col
    match copyBytes result 0 (binary_data.take count) with
    | .error u => .error (.undefined u)
    | .ok data => .ok (.byteData data)
  else if ty = SQLITE_NULL then .ok .null
  else .error (.throw (Throw "Unknown result type"))

/-- The loop of lines 277-279 with `n` columns still to read, from column `i` on. -/
def fillRow (w : World) (statement : Peer) :
    Nat → Nat → List DartValue → Except Abort (List DartValue)
  | 0, _, list => .ok list
  | n + 1, i, list =>
    match get_column_value w statement i with
    | .error a => .error a
    | .ok v => fillRow w statement n (i + 1) (list.set i v)

/-- The function `get_last_row` (lines 274-281). -/
def get_last_row (w : World) (statement : Peer) : Except Abort (List DartValue) :=
  let count := sqlite3_column_count w statement.stmt
  fillRow w statement count 0 (List.replicate count .null)

/-! ## `Step` (lines 296-321) -/

/-- The engine call `sqlite3_step`: the next answer of the statement's script.  A row answer
makes the statement's result row current; the status is remembered for `sqlite3_finalize`
unless it is `SQLITE_ROW` or `SQLITE_DONE`; the connection takes the answer's message and
modified-row count. -/
def sqlite3_step (w : World) (stmt : Nat) : World × Int :=
  match w.stmts[stmt]? with
  | none => (w, SQLITE_MISUSE)
  | some s =>
    let a := s.shape.script s.pc
    let s1 : Stmt :=
      { s with
        pc := s.pc + 1
        rc := if a.status = SQLITE_ROW ∨ a.status = SQLITE_DONE then SQLITE_OK else a.status
        current := if a.status = SQLITE_ROW then s.shape.result s.bindings else [] }
    let dbs1 := modifyAt w.dbs s.db
      (fun d => { d with errmsg := a.errmsg, changes := a.changes.getD d.changes })
    ({ w with stmts := w.stmts.set stmt s1, dbs := dbs1 }, a.status)

/-- The engine call `sqlite3_stmt_readonly`. -/
def sqlite3_stmt_readonly (w : World) (stmt : Nat) : Int :=
  match w.stmts[stmt]? with
  | some s => s.shape.readonly
  | none => 1

/-- The engine call `sqlite3_changes`. -/
def sqlite3_changes (w : World) (db : Nat) : Int :=
  match w.dbs[db]? with
  | some d => d.changes
  | none => 0

/-- The `while (true)` loop of `Step` (lines 300-320), run for at most `fuel` calls of
`sqlite3_step`; `none` when the engine is still busy after that many. -/
def stepLoop (statement : Peer) : Nat → World → Option Outcome
  | 0, _ => none
  | fuel + 1, w =>
    let r := sqlite3_step w statement.stmt
    let status := r.2
    if status = SQLITE_BUSY then stepLoop statement fuel r.1
    else if status = SQLITE_DONE then
      let changes :=
        if sqlite3_stmt_readonly r.1 statement.stmt = 0 then sqlite3_changes r.1 statement.db
        else 0
      some (.ret r.1 (.integer changes))
    else if status = SQLITE_ROW then
      match get_last_row r.1 statement with
      | .ok row => some (.ret r.1 (.row row))
      | .error (.throw f) => some (.throw r.1 f)
      | .error (.undefined u) => some (.undefined r.1 u)
    else
      match CheckSqlError r.1 statement.db status with
      | some f => some (.throw r.1 f)
      | none => some (.throw r.1 (Throw "Unreachable"))

/-- The native function `Step` (lines 296-321). -/
def Step (fuel : Nat) (w : World) (statement_handle : Nat) : Option Outcome :=
  match w.peers[statement_handle]? with
  | none => some (.undefined w .badHandle)
  | some statement => stepLoop statement fuel w

/-! ## Statement and session lifecycle -/

/-- The engine call `sqlite3_prepare_v2(db, zSql, nByte, &stmt, NULL)`: the engine compiles the
first `nByte` bytes of `zSql`, or the bytes before the terminator when that comes first or
`nByte` is negative.  On success a new statement joins the connection, all parameters null. -/
def sqlite3_prepare_v2 (w : World) (db : Nat) (zSql : List UInt8) (nByte : Int) :
    World × Int × Nat :=
  match w.dbs[db]? with
  | none => (w, SQLITE_MISUSE, 0)
  | some d =>
    let sql :=
      if nByte < 0 then zSql.takeWhile (fun b => b != 0)
      else (zSql.take nByte.toNat).takeWhile (fun b => b != 0)
    let a := d.compile sql
    if a.status ≠ 0 then
      ({ w with dbs := w.dbs.set db { d with errmsg := a.errmsg } }, a.status, 0)
    else
      let s : Stmt :=
        { db := db, shape := a.shape, bindings := List.replicate a.shape.paramCount .null,
          pc := 0, current := [], rc := SQLITE_OK, live := true, bindCalls := 0,
          finalizeCalls := 0 }
      ({ w with stmts := w.stmts ++ [s] }, SQLITE_OK, w.stmts.length)

/-- The slot of a statement after one call of `sqlite3_finalize`. -/
def finalized (s : Stmt) : Stmt :=
  { s with live := false, current := [], finalizeCalls := s.finalizeCalls + 1 }

/-- The engine call `sqlite3_finalize`: the call is recorded, the statement leaves the
connection, and the status of its most recent evaluation is the answer. -/
def sqlite3_finalize (w : World) (stmt : Nat) : World × Int :=
  match w.stmts[stmt]? with
  | none => (w, SQLITE_OK)
  | some s => ({ w with stmts := w.stmts.set stmt (finalized s) }, s.rc)

/-- The open statement of connection `db` in the nearest slot below `bound`. -/
def scanDown (stmts : List Stmt) (db : Nat) : Nat → Option Nat
  | 0 => none
  | b + 1 =>
    match stmts[b]? with
    | some s => if s.live = true ∧ s.db = db then some b else scanDown stmts db b
    | none => scanDown stmts db b

/-- The engine call `sqlite3_next_stmt(db, statement)`.  The engine lists a connection's open
statements newest first: the answer is the newest one for `NULL`, and for an open statement
the next older open one.  For a statement that has been finalized the engine reads the
released statement: the answer is `staleNext`. -/
def sqlite3_next_stmt (w : World) (db : Nat) (statement : Option Nat) : Option Nat :=
  match statement with
  | none => scanDown w.stmts db w.stmts.length
  | some p =>
    match w.stmts[p]? with
    | some s => if s.live = true then scanDown w.stmts db p else w.staleNext p
    | none => w.staleNext p

/-- Number of engine statements of connection `db` that are open. -/
def openCount (w : World) (db : Nat) : Nat :=
  (w.stmts.filter (fun s => s.live && decide (s.db = db))).length

/-- The engine call `sqlite3_close`.  While the connection has open statements it stays open
and the answer is `SQLITE_BUSY`; otherwise the answer is the connection's close status, and
the connection is released when that is `SQLITE_OK`. -/
def sqlite3_close (w : World) (db : Nat) : World × Int :=
  match w.dbs[db]? with
  | none => (w, SQLITE_MISUSE)
  | some d =>
    if openCount w db ≠ 0 then
      let d1 : Db :=
        { d with errmsg := "unable to close due to unfinalized statements or unfinished backups" }
      ({ w with dbs := w.dbs.set db d1 }, SQLITE_BUSY)
    else if d.closeStatus = 0 then
      let d1 : Db := { d with isOpen := false }
      ({ w with dbs := w.dbs.set db d1 }, SQLITE_OK)
    else (w, d.closeStatus)

/-- The engine call `sqlite3_free` on a statement peer. -/
def sqlite3_free (w : World) (peer : Nat) : World :=
  { w with peers := modifyAt w.peers peer (fun p => { p with freed := true }) }

/-- The host calls `Dart_NewWeakPersistentHandle(object, peer, finalize_statement)` and
`Dart_HandleFromWeakPersistent` on its result: a new registered handle, or the message of the
error handle when the host refuses. -/
def Dart_NewWeakPersistentHandle (w : World) (object peer : Nat) : World × Except String Nat :=
  match w.weakRefusal object with
  | some message => (w, .error message)
  | none =>
    ({ w with weak := w.weak ++ [{ object := object, peer := peer, registered := true }] },
      .ok w.weak.length)

/-- The host call `Dart_DeleteWeakPersistentHandle`. -/
def Dart_DeleteWeakPersistentHandle (w : World) (handle : Option Nat) : World :=
  match handle with
  | none => w
  | some h => { w with weak := modifyAt w.weak h (fun e => { e with registered := false }) }

/-- The native function `PrepareStatement` (lines 139-169).  `sql_handle` is a host string and
`statement_object` the proxy object. -/
def PrepareStatement (w : World) (db_handle : Nat) (sql_handle : List UInt8)
    (statement_object : Nat) : Outcome :=
  let db := db_handle
  let sql := Dart_StringToCString sql_handle
  let r := sqlite3_prepare_v2 w db sql (toCInt (strlen sql))
  if r.2.1 ≠ 0 then
    .throw r.1 (.sqliteSyntaxException (sqlite3_errmsg r.1 db) sql_handle)
  else
    let stmt := r.2.2
    let peer := r.1.peers.length
    let w1 : World :=
      { r.1 with peers := r.1.peers ++ [{ db := db, stmt := stmt, finalizer := none, freed := false }] }
    let reg := Dart_NewWeakPersistentHandle w1 statement_object peer
    match CheckDartError reg.2 with
    | .error f => .throw reg.1 f
    | .ok finalizer =>
      .ret { reg.1 with
             peers := modifyAt reg.1.peers peer (fun p => { p with finalizer := some finalizer }) }
        (.integer peer)

/-- The native function `CloseStatement` (lines 323-331). -/
def CloseStatement (w : World) (statement_handle : Nat) : Outcome :=
  match w.peers[statement_handle]? with
  | none => .undefined w .badHandle
  | some statement =>
    let r := sqlite3_finalize w statement.stmt
    match CheckSqlError r.1 statement.db r.2 with
    | some f => .throw r.1 f
    | none =>
      let w1 := Dart_DeleteWeakPersistentHandle r.1 statement.finalizer
      let w2 := sqlite3_free w1 statement_handle
      .ret w2 .null

/-- The callback `finalize_statement` (lines 126-137), called by the host with the peer it was
registered with.  Line 136 reads `statement->finalizer` after line 135 has freed the peer; the
read is modelled as finding the field as it was. -/
def finalize_statement (w : World) (ctx : Nat) : World :=
  match w.peers[ctx]? with
  | none => w
  | some statement =>
    let r := sqlite3_finalize w statement.stmt
    let w1 : World :=
      if r.1.warned = false then
        { r.1 with stderr := r.1.stderr ++ [.notClosedBeforeGc], warned := true }
      else r.1
    let w2 := sqlite3_free w1 ctx
    Dart_DeleteWeakPersistentHandle w2 statement.finalizer

/-- The host collects the proxy watched by weak handle `handle`: when the handle is still
registered the host calls `finalize_statement` with its peer, otherwise nothing is called. -/
def collectProxy (w : World) (handle : Nat) : World :=
  match w.weak[handle]? with
  | some e => if e.registered = true then finalize_statement w e.peer else w
  | none => w

/-- The loop of `Close` (lines 108-111), run for at most `fuel` calls of
`sqlite3_next_stmt`. -/
def closeLoop (db : Nat) : Nat → World → Option Nat → Nat → Option (World × Nat)
  | 0, _, _, _ => none
  | fuel + 1, w, statement, count =>
    match sqlite3_next_stmt w db statement with
    | none => some (w, count)
    | some s => closeLoop db fuel (sqlite3_finalize w s).1 (some s) (count + 1)

/-- The native function `Close` (lines 102-118), its loop run with `fuel`. -/
def Close (fuel : Nat) (w : World) (db_handle : Nat) : Option Outcome :=
  let db := db_handle
  match closeLoop db fuel w none 0 with
  | none => none
  | some (w1, count) =>
    let w2 : World :=
      if count ≠ 0 then { w1 with stderr := w1.stderr ++ [.statementsStillOpen count] } else w1
    let r := sqlite3_close w2 db
    match CheckSqlError r.1 db r.2 with
    | some f => some (.throw r.1 f)
    | none => some (.ret r.1 .null)

/-- The operations of a statement's life: the three native functions, and the host collecting
a proxy (which runs `finalize_statement` when its weak handle is registered). -/
inductive Op where
  | prepare (db : Nat) (sql : List UInt8) (proxy : Nat)
  | closeStatement (statement_handle : Nat)
  | collect (handle : Nat)
  | close (db : Nat)

/-- The world after one operation; `Close` gets one unit of fuel per statement slot and one
more. -/
def Op.apply (w : World) : Op → World
  | .prepare db sql proxy => (PrepareStatement w db sql proxy).world
  | .closeStatement h => (CloseStatement w h).world
  | .collect handle => collectProxy w handle
  | .close db =>
    match Close (w.stmts.length + 1) w db with
    | some o => o.world
    | none => w

/-- The world after a sequence of operations. -/
def run (w : World) (ops : List Op) : World :=
  ops.foldl Op.apply w

/-- The statement table after every open statement of connection `db` was finalized once. -/
def finalizeAll (stmts : List Stmt) (db : Nat) : List Stmt :=
  stmts.map (fun s => if s.live = true ∧ s.db = db then finalized s else s)

/-- The statement table after the open statements of `db` in the slots below `b` were
finalized once. -/
def finalizeBelow (stmts : List Stmt) (db b : Nat) : List Stmt :=
  stmts.mapIdx (fun i s => if i < b ∧ s.live = true ∧ s.db = db then finalized s else s)

/-- Number of open statements of `db` in the slots below `b`. -/
def countBelow (stmts : List Stmt) (db : Nat) : Nat → Nat
  | 0 => 0
  | b + 1 =>
    countBelow stmts db b +
      (match stmts[b]? with
        | some s => if s.live = true ∧ s.db = db then 1 else 0
        | none => 0)

/-- The world after `n` calls of `sqlite3_step` on statement `stmt`. -/
def afterSteps (stmt : Nat) (n : Nat) (w : World) : World :=
  (fun x => (sqlite3_step x stmt).1)^[n] w

/-- A one-parameter echo statement, about to yield a row: the peer behind the handle names a
statement with one placeholder (unbound or bound) and one column, whose row is its bindings,
and whose next step answers "has a row". -/
def EchoStatement (w : World) (statement_handle : Nat) : Prop :=
  ∃ statement s, w.peers[statement_handle]? = some statement ∧
    w.stmts[statement.stmt]? = some s ∧
    s.shape.paramCount = 1 ∧ s.shape.columnCount = 1 ∧ s.bindings.length = 1 ∧
    (∀ b, s.shape.result b = b) ∧ (s.shape.script s.pc).status = SQLITE_ROW

/-- The host values whose round trip through `Bind` and `get_last_row` is stated below:
an integer of the signed 64-bit range, a double, null, and a string of fewer than `2^31` code
units none of which is zero. -/
def roundTrips : DartValue → Bool
  | .integer n => decide (-(2 ^ 63) ≤ n ∧ n < 2 ^ 63)
  | .double _ => true
  | .null => true
  | .string units => units.all (fun b => b != 0) && decide (units.length < 2 ^ 31)
  | .byteData _ => false
  | .other _ => false

/-- The row `Step` returns right after `Bind` bound the one-element list `[v]`, if both
calls returned. -/
def bindThenStep (w : World) (statement_handle : Nat) (v : DartValue) : Option Returned :=
  match Bind w statement_handle (.list [v]) with
  | .ret w1 _ => (Step 1 w1 statement_handle).bind Outcome.returned
  | _ => none

/-! ## Sample engines and worlds -/

/-- The code units of an ASCII text. -/
def ascii (s : String) : List UInt8 :=
  s.data.map (fun c => c.toNat.toUInt8)

/-- Shape of `SELECT ?`: one placeholder, one column, the row is the binding. -/
def echoShape : Shape :=
  { paramCount := 1, columnCount := 1, readonly := 1, result := fun b => b,
    script := fun _ =>
      { status := SQLITE_ROW, errmsg := "not an error", changes := none, nonzero := by decide } }

/-- Shape of an `UPDATE` that finds the table locked twice and then modifies three rows. -/
def updateShape : Shape :=
  { paramCount := 0, columnCount := 0, readonly := 0, result := fun _ => [],
    script := fun i =>
      if i < 2 then
        { status := SQLITE_BUSY, errmsg := "database is locked", changes := none,
          nonzero := by decide }
      else
        { status := SQLITE_DONE, errmsg := "not an error", changes := some 3,
          nonzero := by decide } }

/-- Shape of an `INSERT` whose evaluation fails with `SQLITE_CONSTRAINT` (19). -/
def insertShape : Shape :=
  { paramCount := 0, columnCount := 0, readonly := 0, result := fun _ => [],
    script := fun _ =>
      { status := 19, errmsg := "UNIQUE constraint failed: t.x", changes := none,
        nonzero := by decide } }

/-- A compiler that knows three statements and rejects every other text. -/
def sampleCompile (sql : List UInt8) : CompileAnswer :=
  if sql = ascii "SELECT ?" then { status := 0, errmsg := "not an error", shape := echoShape }
  else if sql = ascii "UPDATE t SET x = 1" then
    { status := 0, errmsg := "not an error", shape := updateShape }
  else if sql = ascii "INSERT INTO t VALUES (1)" then
    { status := 0, errmsg := "not an error", shape := insertShape }
  else { status := 1, errmsg := "syntax error", shape := echoShape }

/-- An open connection with the sample compiler. -/
def sampleDb : Db :=
  { compile := sampleCompile, errmsg := "not an error", changes := 0, closeStatus := 0,
    isOpen := true }

/-- One open connection, no statement, a host that grants every weak handle, and an engine
in which a finalized statement reads as having no next statement. -/
def freshWorld : World :=
  { dbs := [sampleDb], stmts := [], peers := [], weak := [], stderr := [], warned := false,
    weakRefusal := fun _ => none, staleNext := fun _ => none }

/-- Nine calls of `PrepareStatement(db, "SELECT ?", proxy)` with proxies 1 to 9, none of the
statements closed, on an engine whose released statements read as SQLite 3.40.1 leaves them
when the nine are finalized newest first: each still shows its next older statement, except
the eighth one finalized (slot 1), which shows none. -/
def nineWorld : World :=
  run { freshWorld with staleNext := fun p => if p ≤ 1 then none else some (p - 1) }
    [.prepare 0 (ascii "SELECT ?") 1, .prepare 0 (ascii "SELECT ?") 2,
      .prepare 0 (ascii "SELECT ?") 3, .prepare 0 (ascii "SELECT ?") 4,
      .prepare 0 (ascii "SELECT ?") 5, .prepare 0 (ascii "SELECT ?") 6,
      .prepare 0 (ascii "SELECT ?") 7, .prepare 0 (ascii "SELECT ?") 8,
      .prepare 0 (ascii "SELECT ?") 9]

/-- The world `freshWorld` with a host that refuses a weak handle for object 7. -/
def refusingWorld : World :=
  { freshWorld with
    weakRefusal := fun object => if object = 7 then some "invalid argument" else none }

/-- The world `freshWorld` after `PrepareStatement(db, "SELECT ?", proxy 7)`. -/
def echoWorld : World :=
  (PrepareStatement freshWorld 0 (ascii "SELECT ?") 7).world

/-- The world `freshWorld` after `PrepareStatement(db, "UPDATE t SET x = 1", proxy 7)`. -/
def updateWorld : World :=
  (PrepareStatement freshWorld 0 (ascii "UPDATE t SET x = 1") 7).world

/-- The world `freshWorld` after `PrepareStatement(db, "INSERT INTO t VALUES (1)", proxy 7)`. -/
def insertWorld : World :=
  (PrepareStatement freshWorld 0 (ascii "INSERT INTO t VALUES (1)") 7).world

/-- The world `insertWorld` after a `Step` that failed with `SQLITE_CONSTRAINT`. -/
def failedInsertWorld : World :=
  match Step 1 insertWorld 0 with
  | some o => o.world
  | none => insertWorld

/-- Number of `sqlite3_finalize` calls the engine has recorded for statement `stmt`. -/
def finalizeCallsOf (w : World) (stmt : Nat) : Nat :=
  match w.stmts[stmt]? with
  | some s => s.finalizeCalls
  | none => 0

/-- Whether statement `stmt` is open on its connection. -/
def isLive (w : World) (stmt : Nat) : Bool :=
  match w.stmts[stmt]? with
  | some s => s.live
  | none => false

/-- Whether weak handle `handle` is registered with the host. -/
def isRegistered (w : World) (handle : Nat) : Bool :=
  match w.weak[handle]? with
  | some e => e.registered
  | none => false

/-- Whether peer `peer` has been handed to `sqlite3_free`. -/
def isFreed (w : World) (peer : Nat) : Bool :=
  match w.peers[peer]? with
  | some p => p.freed
  | none => false

/-! ## Theorems -/

/-- Claim C1: when the argument list's length differs from the statement's declared parameter
count, `Bind` raises the usage failure and leaves the world as it found it: no
`sqlite3_bind_*` call is made and every binding is unchanged. -/
theorem Bind_length_mismatch (w : World) (statement_handle : Nat) (statement : Peer)
    (values : List DartValue)
    (hpeer : w.peers[statement_handle]? = some statement)
    (hlen : values.length ≠ sqlite3_bind_parameter_count w statement.stmt) :
    Bind w statement_handle (.list values)
      = .throw w (.sqliteException "Number of arguments doesn't match number of placeholders") := by
  unfold Bind
  rw [hpeer]
  simp only [Throw]
  rw [if_pos (fun h => hlen h.symm)]

/-! ### Stepping -/

/-- The status `sqlite3_step` answers is the one the statement's script holds at its counter. -/
theorem sqlite3_step_status (w : World) (stmt : Nat) (s : Stmt)
    (hstmt : w.stmts[stmt]? = some s) :
    (sqlite3_step w stmt).2 = (s.shape.script s.pc).status := by
  simp [sqlite3_step, hstmt]

/-- What `sqlite3_step` leaves in the statement's slot: same shape, bindings and connection,
the counter advanced, and the result row current exactly when the answer was a row. -/
theorem sqlite3_step_stmt (w : World) (stmt : Nat) (s : Stmt)
    (hstmt : w.stmts[stmt]? = some s) :
    ∃ s1, (sqlite3_step w stmt).1.stmts[stmt]? = some s1 ∧ s1.shape = s.shape ∧
      s1.pc = s.pc + 1 ∧ s1.bindings = s.bindings ∧ s1.db = s.db ∧
      s1.current = (if (s.shape.script s.pc).status = SQLITE_ROW
        then s.shape.result s.bindings else []) := by
  have hlt : stmt < w.stmts.length := by
    rcases List.getElem?_eq_some_iff.mp hstmt with ⟨h, _⟩
    exact h
  simp [sqlite3_step, hstmt, List.getElem?_set, hlt]

/-- The loop of `Step` on `k` busy answers followed by a finished answer. -/
theorem stepLoop_busy_done (statement : Peer) :
    ∀ (k : Nat) (w : World) (s : Stmt) (fuel : Nat),
      w.stmts[statement.stmt]? = some s →
      (∀ i, i < k → (s.shape.script (s.pc + i)).status = SQLITE_BUSY) →
      (s.shape.script (s.pc + k)).status = SQLITE_DONE →
      k < fuel →
      stepLoop statement fuel w
        = some (.ret (afterSteps statement.stmt (k + 1) w)
            (.integer (if s.shape.readonly ≠ 0 then 0
              else sqlite3_changes (afterSteps statement.stmt (k + 1) w) statement.db))) := by
  intro k
  induction k with
  | zero =>
    intro w s fuel hstmt _ hdone hfuel
    obtain ⟨f, rfl⟩ : ∃ f, fuel = f + 1 := ⟨fuel - 1, by omega⟩
    obtain ⟨s1, hs1, hshape, _⟩ := sqlite3_step_stmt w statement.stmt s hstmt
    have hst := sqlite3_step_status w statement.stmt s hstmt
    simp only [Nat.add_zero] at hdone
    rw [hdone] at hst
    have hro : sqlite3_stmt_readonly (sqlite3_step w statement.stmt).1 statement.stmt
        = s.shape.readonly := by
      simp [sqlite3_stmt_readonly, hs1, hshape]
    simp only [stepLoop, hst, afterSteps, Function.iterate_succ, Function.iterate_zero,
      Function.comp_apply, id_eq, hro]
    by_cases h0 : s.shape.readonly = 0 <;> simp [h0]
  | succ k ih =>
    intro w s fuel hstmt hbusy hdone hfuel
    obtain ⟨f, rfl⟩ : ∃ f, fuel = f + 1 := ⟨fuel - 1, by omega⟩
    obtain ⟨s1, hs1, hshape, hpc, _⟩ := sqlite3_step_stmt w statement.stmt s hstmt
    have hst := sqlite3_step_status w statement.stmt s hstmt
    have hb0 := hbusy 0 (by omega)
    simp only [Nat.add_zero] at hb0
    rw [hb0] at hst
    have hrec := ih (sqlite3_step w statement.stmt).1 s1 f hs1
      (by
        intro i hi
        rw [hshape, hpc]
        have := hbusy (i + 1) (by omega)
        rwa [show s.pc + (i + 1) = s.pc + 1 + i by omega] at this)
      (by
        rw [hshape, hpc]
        rwa [show s.pc + (k + 1) = s.pc + 1 + k by omega] at hdone)
      (by omega)
    rw [hshape] at hrec
    have hunf : stepLoop statement (f + 1) w
        = stepLoop statement f (sqlite3_step w statement.stmt).1 := by
      simp [stepLoop, hst]
    rw [hunf, hrec]
    simp [afterSteps, Function.iterate_succ_apply]

/-- Claim C2: when the engine answers `k` busy statuses and then "finished", `Step` (given
more than `k` turns of its loop) returns 0 if the engine reports the statement read-only, and
otherwise exactly `sqlite3_changes` of the owning connection as it is after those steps. -/
theorem Step_finished (w : World) (statement_handle : Nat) (statement : Peer) (s : Stmt)
    (k fuel : Nat)
    (hpeer : w.peers[statement_handle]? = some statement)
    (hstmt : w.stmts[statement.stmt]? = some s)
    (hbusy : ∀ i, i < k → (s.shape.script (s.pc + i)).status = SQLITE_BUSY)
    (hdone : (s.shape.script (s.pc + k)).status = SQLITE_DONE)
    (hfuel : k < fuel) :
    Step fuel w statement_handle
      = some (.ret (afterSteps statement.stmt (k + 1) w)
          (.integer (if sqlite3_stmt_readonly w statement.stmt ≠ 0 then 0
            else sqlite3_changes (afterSteps statement.stmt (k + 1) w) statement.db))) := by
  have hro : sqlite3_stmt_readonly w statement.stmt = s.shape.readonly := by
    simp [sqlite3_stmt_readonly, hstmt]
  unfold Step
  rw [hpeer, hro]
  exact stepLoop_busy_done statement k w s fuel hstmt hbusy hdone hfuel

/-! ### Round trip -/

/-- Reading a C string back up to its terminator gives the units written, when none is zero. -/
theorem takeWhile_terminated (units : List UInt8) (h : units.all (fun b => b != 0) = true) :
    (units ++ [0]).takeWhile (fun b => b != 0) = units := by
  induction units with
  | nil => simp
  | cons b bs ih =>
    simp only [List.all_cons, Bool.and_eq_true] at h
    simp [List.takeWhile_cons, h.1, ih h.2]

/-- A length below `2^31` survives the narrowing to `int`. -/
theorem toCInt_small (n : Nat) (h : n < 2 ^ 31) : toCInt n = (n : Int) := by
  unfold toCInt
  have h1 : n % 2 ^ 32 = n := Nat.mod_eq_of_lt (by omega)
  rw [h1, if_pos h]

/-- Binding parameter 1 of a one-parameter statement succeeds and leaves exactly that binding. -/
theorem bindCell_echo (w : World) (stmt : Nat) (s : Stmt) (c : Cell)
    (hstmt : w.stmts[stmt]? = some s) (hp : s.shape.paramCount = 1)
    (hb : s.bindings.length = 1) :
    (bindCell w stmt 1 c).2 = 0 ∧ (bindCell w stmt 1 c).1.peers = w.peers ∧
      (bindCell w stmt 1 c).1.stmts[stmt]?
        = some { s with bindings := [c], bindCalls := s.bindCalls + 1 } := by
  have hlt : stmt < w.stmts.length := by
    rcases List.getElem?_eq_some_iff.mp hstmt with ⟨h, _⟩
    exact h
  have hset : s.bindings.set 0 c = [c] := by
    match hbs : s.bindings, hb with
    | [_], _ => rfl
  simp [bindCell, hstmt, hp, List.getElem?_set, hlt, hset]

/-- One turn of the loop of `Step` on an echo statement whose single binding is `c`. -/
theorem stepLoop_row_echo (w : World) (statement : Peer) (s : Stmt) (c : Cell) (v : DartValue)
    (hstmt : w.stmts[statement.stmt]? = some s)
    (hcols : s.shape.columnCount = 1) (hres : ∀ b, s.shape.result b = b)
    (hrow : (s.shape.script s.pc).status = SQLITE_ROW) (hb : s.bindings = [c])
    (hget : ∀ w1, column w1 statement.stmt 0 = c → get_column_value w1 statement 0 = .ok v) :
    stepLoop statement 1 w = some (.ret (sqlite3_step w statement.stmt).1 (.row [v])) := by
  obtain ⟨s1, hs1, hshape, _, _, _, hcur⟩ := sqlite3_step_stmt w statement.stmt s hstmt
  have hst := sqlite3_step_status w statement.stmt s hstmt
  rw [hrow] at hst
  rw [if_pos hrow, hres, hb] at hcur
  have hcol : column (sqlite3_step w statement.stmt).1 statement.stmt 0 = c := by
    simp [column, hs1, hcur]
  have hcount : sqlite3_column_count (sqlite3_step w statement.stmt).1 statement.stmt = 1 := by
    simp [sqlite3_column_count, hs1, hshape, hcols]
  have hlast : get_last_row (sqlite3_step w statement.stmt).1 statement = .ok [v] := by
    simp [get_last_row, hcount, fillRow, hget _ hcol]
  simp [stepLoop, hst, hlast]

/-- The copy loop stays inside a buffer that is at least as long as the data, and fills its
first bytes with the data. -/
theorem copyBytes_fits :
    ∀ (data before : List UInt8) (n : Nat), data.length ≤ n →
      copyBytes (before ++ List.replicate n 0) before.length data
        = .ok (before ++ data ++ List.replicate (n - data.length) 0) := by
  intro data
  induction data with
  | nil => intro before n _; simp [copyBytes]
  | cons b data ih =>
    intro before n hn
    obtain ⟨m, rfl⟩ : ∃ m, n = m + 1 := ⟨n - 1, by simp only [List.length_cons] at hn; omega⟩
    simp only [List.length_cons] at hn
    have hlt : before.length < (before ++ List.replicate (m + 1) 0).length := by simp
    have hset : (before ++ List.replicate (m + 1) (0 : UInt8)).set before.length b
        = (before ++ [b]) ++ List.replicate m 0 := by
      simp [List.replicate_succ]
    have hrec := ih (before ++ [b]) m (by omega)
    simp only [List.length_append, List.length_singleton] at hrec
    unfold copyBytes
    rw [if_pos hlt, hset, hrec]
    simp

/-- Round trip on an echo statement, given the cell `Bind` stores for `v` and the value
`get_column_value` builds from that cell. -/
theorem roundtrip_of_cell (w : World) (statement_handle : Nat) (statement : Peer) (s : Stmt)
    (v : DartValue) (c : Cell)
    (hpeer : w.peers[statement_handle]? = some statement)
    (hstmt : w.stmts[statement.stmt]? = some s)
    (hp : s.shape.paramCount = 1) (hcols : s.shape.columnCount = 1)
    (hb : s.bindings.length = 1) (hres : ∀ b, s.shape.result b = b)
    (hrow : (s.shape.script s.pc).status = SQLITE_ROW)
    (hget : ∀ w1, column w1 statement.stmt 0 = c → get_column_value w1 statement 0 = .ok v)
    (hloop : bindLoop statement 1 w 0 [v] = .ret (bindCell w statement.stmt 1 c).1 .null) :
    (∃ w1, Bind w statement_handle (.list [v]) = .ret w1 .null) ∧
      bindThenStep w statement_handle v = some (.row [v]) := by
  have hcount : sqlite3_bind_parameter_count w statement.stmt = 1 := by
    simp [sqlite3_bind_parameter_count, hstmt, hp]
  obtain ⟨_, hpeers, hs1⟩ := bindCell_echo w statement.stmt s c hstmt hp hb
  have hbind : Bind w statement_handle (.list [v])
      = .ret (bindCell w statement.stmt 1 c).1 .null := by
    simp [Bind, hpeer, hcount, hloop]
  refine ⟨⟨_, hbind⟩, ?_⟩
  have hstep := stepLoop_row_echo (bindCell w statement.stmt 1 c).1 statement _ c v hs1
    hcols hres hrow rfl hget
  simp [bindThenStep, hbind, Step, hpeers, hpeer, hstep, Outcome.returned]

/-- Claim C3 (as amended): on a one-parameter echo statement, for every host value `v` that is
an integer of the signed 64-bit range, a double (as a bit pattern), null, or a string of fewer
than `2^31` code units none of which is zero, `Bind` of `[v]` returns and the following `Step`
returns the one-element row `[v]`. -/
theorem Bind_Step_roundtrip (w : World) (statement_handle : Nat) (v : DartValue)
    (hecho : EchoStatement w statement_handle) (hv : roundTrips v = true) :
    (∃ w1, Bind w statement_handle (.list [v]) = .ret w1 .null) ∧
      bindThenStep w statement_handle v = some (.row [v]) := by
  obtain ⟨statement, s, hpeer, hstmt, hp, hcols, hb, hres, hrow⟩ := hecho
  have key := fun (c : Cell) =>
    roundtrip_of_cell w statement_handle statement s v c hpeer hstmt hp hcols hb hres hrow
  cases v with
  | integer n =>
    simp only [roundTrips, decide_eq_true_eq] at hv
    refine key (.integer n) ?_ ?_
    · intro w1 hcol
      simp [get_column_value, sqlite3_column_type, sqlite3_column_int64, hcol]
    · have hz := (bindCell_echo w statement.stmt s (.integer n) hstmt hp hb).1
      have hi : Dart_IntegerToInt64 n = some n := by
        unfold Dart_IntegerToInt64
        rw [if_pos hv]
      simp [bindLoop, hi, sqlite3_bind_int64, CheckSqlError, hz]
  | double bits =>
    refine key (.float bits) ?_ ?_
    · intro w1 hcol
      simp [get_column_value, sqlite3_column_type, sqlite3_column_double, hcol]
    · have hz := (bindCell_echo w statement.stmt s (.float bits) hstmt hp hb).1
      simp [bindLoop, sqlite3_bind_double, CheckSqlError, hz]
  | null =>
    refine key .null ?_ ?_
    · intro w1 hcol
      simp [get_column_value, sqlite3_column_type, hcol]
    · have hz := (bindCell_echo w statement.stmt s .null hstmt hp hb).1
      simp [bindLoop, sqlite3_bind_null, CheckSqlError, hz]
  | string units =>
    simp only [roundTrips, Bool.and_eq_true, decide_eq_true_eq] at hv
    obtain ⟨hnz, hlen⟩ := hv
    have htw := takeWhile_terminated units hnz
    refine key (.text units) ?_ ?_
    · intro w1 hcol
      simp [get_column_value, sqlite3_column_type, sqlite3_column_text, hcol,
        Dart_NewStringFromCString, htw]
    · have hz := (bindCell_echo w statement.stmt s (.text units) hstmt hp hb).1
      have hn : toCInt (strlen (Dart_StringToCString units)) = (units.length : Int) := by
        rw [strlen, Dart_StringToCString, htw, toCInt_small _ hlen]
      have htext : sqlite3_bind_text w statement.stmt 1 (Dart_StringToCString units)
          (toCInt (strlen (Dart_StringToCString units)))
          = bindCell w statement.stmt 1 (.text units) := by
        have hneg : ¬ ((units.length : Int) < 0) := by omega
        rw [hn]
        simp [sqlite3_bind_text, Dart_StringToCString, hneg]
      simp [bindLoop, htext, CheckSqlError, hz]
  | byteData bytes => simp [roundTrips] at hv
  | other tag => simp [roundTrips] at hv

/-- A blob that fits the buffer `Bind` allocates for a one-parameter statement (one byte)
comes back byte for byte. -/
theorem Bind_Step_blob_that_fits (w : World) (statement_handle : Nat) (bytes : List UInt8)
    (hecho : EchoStatement w statement_handle) (hfit : bytes.length ≤ 1) :
    (∃ w1, Bind w statement_handle (.list [.byteData bytes]) = .ret w1 .null) ∧
      bindThenStep w statement_handle (.byteData bytes) = some (.row [.byteData bytes]) := by
  obtain ⟨statement, s, hpeer, hstmt, hp, hcols, hb, hres, hrow⟩ := hecho
  refine roundtrip_of_cell w statement_handle statement s _ (.blob bytes) hpeer hstmt hp hcols
    hb hres hrow ?_ ?_
  · intro w1 hcol
    have hcopy := copyBytes_fits bytes [] bytes.length (Nat.le_refl _)
    simp only [List.nil_append, List.length_nil, Nat.sub_self, List.replicate_zero,
      List.append_nil] at hcopy
    simp [get_column_value, sqlite3_column_type, sqlite3_column_bytes, sqlite3_column_blob,
      hcol, Dart_NewTypedData, hcopy]
  · have hz := (bindCell_echo w statement.stmt s (.blob bytes) hstmt hp hb).1
    have hcopy := copyBytes_fits bytes [] 1 hfit
    simp only [List.nil_append, List.length_nil, List.replicate_one] at hcopy
    have hn : toCInt bytes.length = (bytes.length : Int) := toCInt_small _ (by omega)
    have hblob : sqlite3_bind_blob w statement.stmt 1
        (bytes ++ List.replicate (1 - bytes.length) 0) (toCInt bytes.length)
        = bindCell w statement.stmt 1 (.blob bytes) := by
      rw [hn]
      simp [sqlite3_bind_blob]
    have hloop : bindLoop statement 1 w 0 [.byteData bytes]
        = (match copyBytes [0] 0 bytes with
          | .error u => .undefined w u
          | .ok result =>
            match CheckSqlError (sqlite3_bind_blob w statement.stmt 1 result
                (toCInt bytes.length)).1 statement.db
              (sqlite3_bind_blob w statement.stmt 1 result (toCInt bytes.length)).2 with
            | some f => .throw (sqlite3_bind_blob w statement.stmt 1 result
                (toCInt bytes.length)).1 f
            | none => .ret (sqlite3_bind_blob w statement.stmt 1 result
                (toCInt bytes.length)).1 .null) := by
      simp [bindLoop, sqlite3_malloc]
    rw [hloop, hcopy]
    simp only
    rw [hblob]
    simp [CheckSqlError, hz]

/-! ### Closing a session -/

/-- When the scan finds nothing, no slot below the bound holds an open statement of `db`. -/
theorem scanDown_none (stmts : List Stmt) (db : Nat) :
    ∀ b, scanDown stmts db b = none →
      ∀ i, i < b → ∀ s, stmts[i]? = some s → ¬ (s.live = true ∧ s.db = db) := by
  intro b
  induction b with
  | zero => intro _ i hi; omega
  | succ b ih =>
    intro h i hi s hs
    unfold scanDown at h
    cases hb : stmts[b]? with
    | none =>
      rw [hb] at h
      have hne : i ≠ b := by
        rintro rfl
        rw [hb] at hs
        cases hs
      exact ih h i (by omega) s hs
    | some sb =>
      rw [hb] at h
      simp only at h
      by_cases hopen : sb.live = true ∧ sb.db = db
      · rw [if_pos hopen] at h
        cases h
      · rw [if_neg hopen] at h
        by_cases hib : i = b
        · subst hib
          rw [hb] at hs
          cases hs
          exact hopen
        · exact ih h i (by omega) s hs

/-- When the scan finds slot `p`, it is the nearest slot below the bound that holds an open
statement of `db`. -/
theorem scanDown_some (stmts : List Stmt) (db : Nat) :
    ∀ b p, scanDown stmts db b = some p →
      p < b ∧ (∃ s, stmts[p]? = some s ∧ s.live = true ∧ s.db = db) ∧
        ∀ i, p < i → i < b → ∀ s, stmts[i]? = some s → ¬ (s.live = true ∧ s.db = db) := by
  intro b
  induction b with
  | zero =>
    intro p h
    simp [scanDown] at h
  | succ b ih =>
    intro p h
    unfold scanDown at h
    cases hb : stmts[b]? with
    | none =>
      rw [hb] at h
      obtain ⟨h1, h2, h3⟩ := ih p h
      refine ⟨by omega, h2, ?_⟩
      intro i hpi hi s hs
      by_cases hib : i = b
      · subst hib
        rw [hb] at hs
        cases hs
      · exact h3 i hpi (by omega) s hs
    | some sb =>
      rw [hb] at h
      simp only at h
      by_cases hopen : sb.live = true ∧ sb.db = db
      · rw [if_pos hopen] at h
        cases h
        exact ⟨by omega, ⟨sb, hb, hopen.1, hopen.2⟩, fun i hpi hi => by omega⟩
      · rw [if_neg hopen] at h
        obtain ⟨h1, h2, h3⟩ := ih p h
        refine ⟨by omega, h2, ?_⟩
        intro i hpi hi s hs
        by_cases hib : i = b
        · subst hib
          rw [hb] at hs
          cases hs
          exact hopen
        · exact h3 i hpi (by omega) s hs

/-- Nothing to finalize below `b` when no slot below `b` is open. -/
theorem finalizeBelow_of_none (stmts : List Stmt) (db b : Nat)
    (h : ∀ i, i < b → ∀ s, stmts[i]? = some s → ¬ (s.live = true ∧ s.db = db)) :
    finalizeBelow stmts db b = stmts := by
  apply List.ext_getElem?
  intro i
  unfold finalizeBelow
  rw [List.getElem?_mapIdx]
  cases hi : stmts[i]? with
  | none => rfl
  | some s =>
    simp only [Option.map_some']
    by_cases hib : i < b
    · have := h i hib s hi
      rw [if_neg (fun hc => this hc.2)]
    · rw [if_neg (fun hc => hib hc.1)]

/-- Nothing to count below `b` when no slot below `b` is open. -/
theorem countBelow_of_none (stmts : List Stmt) (db : Nat) :
    ∀ b, (∀ i, i < b → ∀ s, stmts[i]? = some s → ¬ (s.live = true ∧ s.db = db)) →
      countBelow stmts db b = 0 := by
  intro b
  induction b with
  | zero => intro _; rfl
  | succ b ih =>
    intro h
    unfold countBelow
    rw [ih (fun i hi => h i (by omega))]
    cases hb : stmts[b]? with
    | none => rfl
    | some s =>
      simp only [Nat.zero_add]
      rw [if_neg (h b (by omega) s hb)]

/-- The count below `b` only looks at the slots below `b`. -/
theorem countBelow_congr (l1 l2 : List Stmt) (db : Nat) :
    ∀ b, (∀ i, i < b → l1[i]? = l2[i]?) → countBelow l1 db b = countBelow l2 db b := by
  intro b
  induction b with
  | zero => intro _; rfl
  | succ b ih =>
    intro h
    unfold countBelow
    rw [ih (fun i hi => h i (by omega)), h b (by omega)]

/-- When `p` is the nearest open slot below `b`, the count below `b` is one more than the count
below `p`. -/
theorem countBelow_above (stmts : List Stmt) (db p : Nat) (s : Stmt)
    (hp : stmts[p]? = some s) (hopen : s.live = true ∧ s.db = db) :
    ∀ b, p < b →
      (∀ i, p < i → i < b → ∀ t, stmts[i]? = some t → ¬ (t.live = true ∧ t.db = db)) →
      countBelow stmts db b = countBelow stmts db p + 1 := by
  intro b
  induction b with
  | zero => intro h; omega
  | succ b ih =>
    intro hpb hnone
    by_cases hpb' : p = b
    · subst hpb'
      unfold countBelow
      rw [hp]
      simp only
      rw [if_pos hopen]
      cases p <;> rfl
    · have hrec := ih (by omega) (fun i hpi hi => hnone i hpi (by omega))
      rw [show countBelow stmts db (b + 1) = countBelow stmts db b +
        (match stmts[b]? with
          | some s => if s.live = true ∧ s.db = db then 1 else 0
          | none => 0) from rfl, hrec]
      cases hb : stmts[b]? with
      | none => rfl
      | some t =>
        simp only
        rw [if_neg (hnone b (by omega) (by omega) t hb)]

/-- Finalizing the nearest open slot `p` below `b` and then the open slots below `p` is
finalizing the open slots below `b`. -/
theorem finalizeBelow_step (stmts : List Stmt) (db p b : Nat) (s : Stmt)
    (hpb : p < b) (hp : stmts[p]? = some s) (hopen : s.live = true ∧ s.db = db)
    (hnone : ∀ i, p < i → i < b → ∀ t, stmts[i]? = some t → ¬ (t.live = true ∧ t.db = db)) :
    finalizeBelow (stmts.set p (finalized s)) db p = finalizeBelow stmts db b := by
  have hlt : p < stmts.length := by
    rcases List.getElem?_eq_some_iff.mp hp with ⟨h, _⟩
    exact h
  apply List.ext_getElem?
  intro i
  unfold finalizeBelow
  rw [List.getElem?_mapIdx, List.getElem?_mapIdx]
  by_cases hip : i = p
  · subst hip
    rw [List.getElem?_set_self hlt, hp]
    simp only [Option.map_some']
    rw [if_neg (fun hc => by omega), if_pos ⟨hpb, hopen⟩]
  · rw [List.getElem?_set_ne (fun h => hip h.symm)]
    cases hi : stmts[i]? with
    | none => rfl
    | some t =>
      simp only [Option.map_some']
      by_cases hlow : i < p
      · by_cases ht : t.live = true ∧ t.db = db
        · rw [if_pos ⟨hlow, ht⟩, if_pos ⟨by omega, ht⟩]
        · rw [if_neg (fun hc => ht hc.2), if_neg (fun hc => ht hc.2)]
      · rw [if_neg (fun hc => hlow hc.1)]
        by_cases hib : i < b
        · rw [if_neg (fun hc => hnone i (by omega) hib t hi hc.2)]
        · rw [if_neg (fun hc => hib hc.1)]

/-- The scan below `b` only looks at the slots below `b`. -/
theorem scanDown_congr (l1 l2 : List Stmt) (db : Nat) :
    ∀ b, (∀ i, i < b → l1[i]? = l2[i]?) → scanDown l1 db b = scanDown l2 db b := by
  intro b
  induction b with
  | zero => intro _; rfl
  | succ b ih =>
    intro h
    unfold scanDown
    rw [ih (fun i hi => h i (by omega)), h b (by omega)]

/-- The loop of `Close` entered with its cursor at bound `b`, on an engine whose released
statements still show their next older open statement: it ends within `b + 1` turns, having
finalized once each open statement of `db` below `b` and counted them. -/
theorem closeLoop_spec (db : Nat) :
    ∀ (b : Nat) (w : World) (statement : Option Nat) (count fuel : Nat),
      (match statement with
        | none => w.stmts.length
        | some p => p) = b →
      (∀ q, q ≤ b → w.staleNext q = scanDown w.stmts db q) →
      b < fuel →
      closeLoop db fuel w statement count
        = some ({ w with stmts := finalizeBelow w.stmts db b }, count + countBelow w.stmts db b) := by
  intro b
  induction b using Nat.strong_induction_on with
  | _ b ih =>
    intro w statement count fuel hb hstale hfuel
    obtain ⟨f, rfl⟩ : ∃ f, fuel = f + 1 := ⟨fuel - 1, by omega⟩
    have hnext : sqlite3_next_stmt w db statement = scanDown w.stmts db b := by
      cases statement with
      | none => simp only at hb; simp [sqlite3_next_stmt, hb]
      | some p =>
        simp only at hb
        subst hb
        unfold sqlite3_next_stmt
        simp only
        cases hp : w.stmts[p]? with
        | none => exact hstale p (Nat.le_refl _)
        | some t =>
          simp only
          by_cases hl : t.live = true
          · rw [if_pos hl]
          · rw [if_neg hl]
            exact hstale p (Nat.le_refl _)
    unfold closeLoop
    rw [hnext]
    cases hscan : scanDown w.stmts db b with
    | none =>
      have hn := scanDown_none w.stmts db b hscan
      simp only
      rw [finalizeBelow_of_none w.stmts db b hn, countBelow_of_none w.stmts db b hn]
      rfl
    | some p =>
      obtain ⟨hpb, ⟨s, hp, hl, hd⟩, hnone⟩ := scanDown_some w.stmts db b p hscan
      have hfin : (sqlite3_finalize w p).1 = { w with stmts := w.stmts.set p (finalized s) } := by
        simp [sqlite3_finalize, hp]
      have hstale1 : ∀ q, q ≤ p →
          ({ w with stmts := w.stmts.set p (finalized s) } : World).staleNext q
            = scanDown (w.stmts.set p (finalized s)) db q := by
        intro q hq
        rw [scanDown_congr (w.stmts.set p (finalized s)) w.stmts db q
          (fun i hi => List.getElem?_set_ne (by omega))]
        exact hstale q (by omega)
      simp only
      rw [hfin, ih p hpb _ (some p) (count + 1) f rfl hstale1 (by omega)]
      simp only
      rw [finalizeBelow_step w.stmts db p b s hpb hp ⟨hl, hd⟩ hnone]
      have hc1 : countBelow (w.stmts.set p (finalized s)) db p = countBelow w.stmts db p :=
        countBelow_congr _ _ db p (fun i hi => List.getElem?_set_ne (by omega))
      rw [hc1, countBelow_above w.stmts db p s hp ⟨hl, hd⟩ b hpb hnone]
      congr 2
      omega

/-- Below the table's length is the whole table. -/
theorem finalizeBelow_length (stmts : List Stmt) (db : Nat) :
    finalizeBelow stmts db stmts.length = finalizeAll stmts db := by
  apply List.ext_getElem?
  intro i
  unfold finalizeBelow finalizeAll
  rw [List.getElem?_mapIdx, List.getElem?_map]
  cases hi : stmts[i]? with
  | none => rfl
  | some t =>
    have hlt : i < stmts.length := by
      rcases List.getElem?_eq_some_iff.mp hi with ⟨h, _⟩
      exact h
    simp [hlt]

/-- The count below `b` is the number of open statements among the first `b` slots. -/
theorem countBelow_take (stmts : List Stmt) (db : Nat) :
    ∀ b, b ≤ stmts.length →
      countBelow stmts db b
        = ((stmts.take b).filter (fun s => s.live && decide (s.db = db))).length := by
  intro b
  induction b with
  | zero => intro _; simp [countBelow]
  | succ b ih =>
    intro hb
    have hlt : b < stmts.length := by omega
    unfold countBelow
    rw [ih (by omega), List.take_succ, List.filter_append, List.length_append,
      List.getElem?_eq_getElem hlt]
    by_cases hopen : stmts[b].live = true ∧ stmts[b].db = db
    · simp [hopen.1, hopen.2]
    · have hf : (stmts[b].live && decide (stmts[b].db = db)) = false := by
        cases hl : stmts[b].live <;> simp_all
      simp only [Option.toList, List.filter_cons, hf, List.filter_nil, List.length_nil]
      rw [if_neg hopen]
      simp

/-- The count below the table's length is the session's number of open statements. -/
theorem countBelow_length (w : World) (db : Nat) :
    countBelow w.stmts db w.stmts.length = openCount w db := by
  rw [countBelow_take w.stmts db w.stmts.length (Nat.le_refl _), List.take_length]
  rfl

/-- The engine call `sqlite3_close` touches neither the statement table nor `stderr`. -/
theorem sqlite3_close_tables (w : World) (db : Nat) :
    (sqlite3_close w db).1.stmts = w.stmts ∧ (sqlite3_close w db).1.stderr = w.stderr := by
  unfold sqlite3_close
  cases w.dbs[db]? with
  | none => exact ⟨rfl, rfl⟩
  | some d =>
    simp only
    split
    · exact ⟨rfl, rfl⟩
    · split <;> exact ⟨rfl, rfl⟩

/-- What `Close` does on a session with `N` open statements when every released statement
still shows its next older open one: the loop (given one turn per statement slot and one
more) ends; `sqlite3_close` is called on a world in which each of the `N` has been finalized
once and no other statement touched; `stderr` has gained the warning with count `N` when
`N > 0` and nothing when `N = 0`. -/
theorem Close_when_released_statements_answer (w : World) (db_handle fuel : Nat)
    (hfuel : w.stmts.length < fuel)
    (hstale : ∀ q, w.staleNext q = scanDown w.stmts db_handle q) :
    ∃ o, Close fuel w db_handle = some o ∧
      o.world = (sqlite3_close
        { w with
          stmts := finalizeAll w.stmts db_handle
          stderr := if openCount w db_handle = 0 then w.stderr
            else w.stderr ++ [.statementsStillOpen (openCount w db_handle)] } db_handle).1 ∧
      o.world.stmts = finalizeAll w.stmts db_handle ∧
      o.world.stderr = (if openCount w db_handle = 0 then w.stderr
        else w.stderr ++ [.statementsStillOpen (openCount w db_handle)]) := by
  have hloop := closeLoop_spec db_handle w.stmts.length w none 0 fuel rfl
    (fun q _ => hstale q) hfuel
  rw [finalizeBelow_length, countBelow_length, Nat.zero_add] at hloop
  have hw2 : (if openCount w db_handle ≠ 0 then
        ({ ({ w with stmts := finalizeAll w.stmts db_handle } : World) with
          stderr := w.stderr ++ [.statementsStillOpen (openCount w db_handle)] } : World)
      else { w with stmts := finalizeAll w.stmts db_handle })
      = { w with
          stmts := finalizeAll w.stmts db_handle
          stderr := if openCount w db_handle = 0 then w.stderr
            else w.stderr ++ [.statementsStillOpen (openCount w db_handle)] } := by
    by_cases h0 : openCount w db_handle = 0 <;> simp [h0]
  unfold Close
  simp only [hloop, hw2]
  obtain ⟨hs, he⟩ := sqlite3_close_tables
    { w with
      stmts := finalizeAll w.stmts db_handle
      stderr := if openCount w db_handle = 0 then w.stderr
        else w.stderr ++ [.statementsStillOpen (openCount w db_handle)] } db_handle
  split
  · exact ⟨_, rfl, rfl, hs, he⟩
  · exact ⟨_, rfl, rfl, hs, he⟩

/-! ### Preparing a statement -/

/-- A failed compile adds no statement and touches neither peers nor weak handles. -/
theorem sqlite3_prepare_v2_failure_tables (w : World) (db : Nat) (zSql : List UInt8)
    (nByte : Int) (hfail : (sqlite3_prepare_v2 w db zSql nByte).2.1 ≠ 0) :
    (sqlite3_prepare_v2 w db zSql nByte).1.stmts = w.stmts ∧
      (sqlite3_prepare_v2 w db zSql nByte).1.peers = w.peers ∧
      (sqlite3_prepare_v2 w db zSql nByte).1.weak = w.weak := by
  unfold sqlite3_prepare_v2 at hfail ⊢
  cases hdb : w.dbs[db]? with
  | none => exact ⟨rfl, rfl, rfl⟩
  | some d =>
    rw [hdb] at hfail
    simp only at hfail ⊢
    generalize (if nByte < 0 then zSql.takeWhile (fun b => b != 0)
      else (zSql.take nByte.toNat).takeWhile (fun b => b != 0)) = sql at hfail ⊢
    by_cases h : (d.compile sql).status ≠ 0
    · rw [if_pos h]
      exact ⟨rfl, rfl, rfl⟩
    · rw [if_neg h] at hfail
      exact absurd rfl hfail

/-- Claim C5: when the engine's compile call answers a non-success status, `PrepareStatement`
raises `SqliteSyntaxException` with the engine's error message as it is after that call and
the SQL text it was given; no peer is allocated, no weak handle registered, and the
connection has no new statement. -/
theorem PrepareStatement_compile_failure (w : World) (db_handle : Nat)
    (sql_handle : List UInt8) (statement_object : Nat)
    (hfail : (sqlite3_prepare_v2 w db_handle (Dart_StringToCString sql_handle)
      (toCInt (strlen (Dart_StringToCString sql_handle)))).2.1 ≠ 0) :
    ∃ w1, PrepareStatement w db_handle sql_handle statement_object
        = .throw w1 (.sqliteSyntaxException (sqlite3_errmsg w1 db_handle) sql_handle) ∧
      w1 = (sqlite3_prepare_v2 w db_handle (Dart_StringToCString sql_handle)
        (toCInt (strlen (Dart_StringToCString sql_handle)))).1 ∧
      w1.peers = w.peers ∧ w1.weak = w.weak ∧ w1.stmts = w.stmts := by
  obtain ⟨hs, hp, hk⟩ := sqlite3_prepare_v2_failure_tables w db_handle _ _ hfail
  refine ⟨_, ?_, rfl, hp, hk, hs⟩
  unfold PrepareStatement
  simp only
  rw [if_pos hfail]

/-! ### Statuses of `sqlite3_step` other than row, finished and busy -/

/-- The loop of `Step` spends one turn on each busy answer. -/
theorem stepLoop_skip_busy (statement : Peer) :
    ∀ (k : Nat) (w : World) (s : Stmt) (fuel : Nat),
      w.stmts[statement.stmt]? = some s →
      (∀ i, i < k → (s.shape.script (s.pc + i)).status = SQLITE_BUSY) →
      stepLoop statement (k + fuel) w = stepLoop statement fuel (afterSteps statement.stmt k w) ∧
        ∃ s1, (afterSteps statement.stmt k w).stmts[statement.stmt]? = some s1 ∧
          s1.shape = s.shape ∧ s1.pc = s.pc + k := by
  intro k
  induction k with
  | zero =>
    intro w s fuel hstmt _
    exact ⟨by simp [afterSteps], s, hstmt, rfl, rfl⟩
  | succ k ih =>
    intro w s fuel hstmt hbusy
    obtain ⟨s1, hs1, hshape, hpc, _⟩ := sqlite3_step_stmt w statement.stmt s hstmt
    have hst := sqlite3_step_status w statement.stmt s hstmt
    have hb0 := hbusy 0 (by omega)
    simp only [Nat.add_zero] at hb0
    rw [hb0] at hst
    obtain ⟨hrec, s2, hs2, hshape2, hpc2⟩ := ih (sqlite3_step w statement.stmt).1 s1 fuel hs1
      (by
        intro i hi
        rw [hshape, hpc]
        have := hbusy (i + 1) (by omega)
        rwa [show s.pc + (i + 1) = s.pc + 1 + i by omega] at this)
    have hafter : afterSteps statement.stmt (k + 1) w
        = afterSteps statement.stmt k (sqlite3_step w statement.stmt).1 := by
      simp [afterSteps, Function.iterate_succ_apply]
    rw [hafter]
    refine ⟨?_, s2, hs2, by rw [hshape2, hshape], by rw [hpc2, hpc]; omega⟩
    rw [← hrec, show k + 1 + fuel = (k + fuel) + 1 by omega]
    simp [stepLoop, hst]

/-- Claim C10: when the engine answers `k` busy statuses and then a status that is none of
"has a row", "finished" and "resource busy", `Step` (given more than `k` turns of its loop)
raises `SqliteException` with the engine's error message of the statement's connection as it
is after that call: `CheckSqlError` raises, so `Throw("Unreachable")` is not reached. -/
theorem Step_error_status (w : World) (statement_handle : Nat) (statement : Peer) (s : Stmt)
    (k fuel : Nat)
    (hpeer : w.peers[statement_handle]? = some statement)
    (hstmt : w.stmts[statement.stmt]? = some s)
    (hbusy : ∀ i, i < k → (s.shape.script (s.pc + i)).status = SQLITE_BUSY)
    (hrow : (s.shape.script (s.pc + k)).status ≠ SQLITE_ROW)
    (hdone : (s.shape.script (s.pc + k)).status ≠ SQLITE_DONE)
    (hnotbusy : (s.shape.script (s.pc + k)).status ≠ SQLITE_BUSY)
    (hfuel : k < fuel) :
    Step fuel w statement_handle
      = some (.throw (afterSteps statement.stmt (k + 1) w)
          (.sqliteException
            (sqlite3_errmsg (afterSteps statement.stmt (k + 1) w) statement.db))) := by
  obtain ⟨f, rfl⟩ : ∃ f, fuel = k + (f + 1) := ⟨fuel - k - 1, by omega⟩
  obtain ⟨hskip, s1, hs1, hshape, hpc⟩ :=
    stepLoop_skip_busy statement k w s (f + 1) hstmt hbusy
  have hst := sqlite3_step_status (afterSteps statement.stmt k w) statement.stmt s1 hs1
  rw [hshape, hpc] at hst
  have hafter : afterSteps statement.stmt (k + 1) w
      = (sqlite3_step (afterSteps statement.stmt k w) statement.stmt).1 := by
    simp [afterSteps, Function.iterate_succ_apply']
  unfold Step
  rw [hpeer]
  simp only
  rw [hskip, hafter]
  have hok := (s.shape.script (s.pc + k)).nonzero
  simp [stepLoop, hst, hok, hrow, hdone, hnotbusy, CheckSqlError, Throw]

/-! ### The theorems at concrete worlds -/

/-- Claim C1 at `echoWorld`: two arguments for the one placeholder of `SELECT ?`. -/
theorem Bind_length_mismatch_witness :
    [DartValue.integer 1, DartValue.null].length ≠ sqlite3_bind_parameter_count echoWorld 0 ∧
      Bind echoWorld 0 (.list [.integer 1, .null])
        = .throw echoWorld
          (.sqliteException "Number of arguments doesn't match number of placeholders") :=
  ⟨by decide,
    Bind_length_mismatch echoWorld 0 { db := 0, stmt := 0, finalizer := some 0, freed := false }
      [.integer 1, .null] (by decide) (by decide)⟩

/-- Claim C2 at `updateWorld`: two busy answers, then finished with three rows modified. -/
theorem Step_finished_witness :
    Step 3 updateWorld 0
      = some (.ret (afterSteps 0 3 updateWorld)
          (.integer (if sqlite3_stmt_readonly updateWorld 0 ≠ 0 then 0
            else sqlite3_changes (afterSteps 0 3 updateWorld) 0))) ∧
      sqlite3_changes (afterSteps 0 3 updateWorld) 0 = 3 :=
  ⟨Step_finished updateWorld 0 { db := 0, stmt := 0, finalizer := some 0, freed := false }
      { db := 0, shape := updateShape, bindings := [], pc := 0, current := [], rc := 0,
        live := true, bindCalls := 0, finalizeCalls := 0 }
      2 3 (by decide) rfl (by decide) (by decide) (by decide),
    by decide⟩

/-- The statement of `echoWorld` is an echo statement. -/
theorem echoWorld_echo : EchoStatement echoWorld 0 :=
  ⟨{ db := 0, stmt := 0, finalizer := some 0, freed := false },
    { db := 0, shape := echoShape, bindings := [.null], pc := 0, current := [], rc := 0,
      live := true, bindCalls := 0, finalizeCalls := 0 },
    by decide, rfl, rfl, rfl, rfl, fun _ => rfl, rfl⟩

/-- Claim C3 (as amended) at `echoWorld`, for the two-unit string `hi`. -/
theorem Bind_Step_roundtrip_witness :
    roundTrips (.string [104, 105]) = true ∧
      (∃ w1, Bind echoWorld 0 (.list [.string [104, 105]]) = .ret w1 .null) ∧
      bindThenStep echoWorld 0 (.string [104, 105]) = some (.row [.string [104, 105]]) :=
  ⟨by decide, Bind_Step_roundtrip echoWorld 0 (.string [104, 105]) echoWorld_echo (by decide)⟩

/-- Claim C3, counterexample: on the echo statement of `echoWorld`, the three-unit string
`a`, zero, `b` is bound and read back as the one-unit string `a`: the row differs from `[v]`. -/
theorem Bind_Step_text_truncated :
    EchoStatement echoWorld 0 ∧
      bindThenStep echoWorld 0 (.string [97, 0, 98]) = some (.row [.string [97]]) ∧
      bindThenStep echoWorld 0 (.string [97, 0, 98]) ≠ some (.row [.string [97, 0, 98]]) :=
  ⟨echoWorld_echo, by decide, by decide⟩

/-- Claim C4, failing input: on a statement with one placeholder, `Bind` of a list holding one
two-byte blob allocates `sqlite3_malloc(1)` and its second write, at index 1, lies past that
buffer. -/
theorem Bind_blob_heap_overflow :
    sqlite3_bind_parameter_count echoWorld 0 = 1 ∧
      sqlite3_malloc [DartValue.byteData [1, 2]].length = [0] ∧
      (Bind echoWorld 0 (.list [.byteData [1, 2]])).fault = some (.heapOverflow 1 1) := by
  decide

/-- Claim C5 at `freshWorld`, for the text `SELEKT 1`. -/
theorem PrepareStatement_compile_failure_witness :
    ∃ w1, PrepareStatement freshWorld 0 (ascii "SELEKT 1") 7
        = .throw w1 (.sqliteSyntaxException (sqlite3_errmsg w1 0) (ascii "SELEKT 1")) ∧
      w1 = (sqlite3_prepare_v2 freshWorld 0 (Dart_StringToCString (ascii "SELEKT 1"))
        (toCInt (strlen (Dart_StringToCString (ascii "SELEKT 1"))))).1 ∧
      w1.peers = freshWorld.peers ∧ w1.weak = freshWorld.weak ∧ w1.stmts = freshWorld.stmts :=
  PrepareStatement_compile_failure freshWorld 0 (ascii "SELEKT 1") 7 (by decide)

/-- Claim C6, failing input: after `PrepareStatement`, session `Close` and the collection of
the proxy, the engine has recorded two `sqlite3_finalize` calls for the one statement: `Close`
made the first and left the weak handle registered, `finalize_statement` made the second. -/
theorem Close_then_collect_finalizes_twice :
    finalizeCallsOf (run freshWorld [.prepare 0 (ascii "SELECT ?") 7, .close 0]) 0 = 1 ∧
      isRegistered (run freshWorld [.prepare 0 (ascii "SELECT ?") 7, .close 0]) 0 = true ∧
      finalizeCallsOf
        (run freshWorld [.prepare 0 (ascii "SELECT ?") 7, .close 0, .collect 0]) 0 = 2 := by
  decide

/-- Claim C7, failing input: a live statement whose last step failed with status 19.
`sqlite3_finalize` answers 19, `CloseStatement` raises at `CheckSqlError`; the weak handle is
still registered and the peer not freed, and collecting the proxy then runs
`finalize_statement`: the leak warning is written and `sqlite3_finalize` called again. -/
theorem CloseStatement_failure_keeps_weak_handle :
    isLive failedInsertWorld 0 = true ∧
      (CloseStatement failedInsertWorld 0).failure
        = some (.sqliteException "UNIQUE constraint failed: t.x") ∧
      isRegistered (CloseStatement failedInsertWorld 0).world 0 = true ∧
      isFreed (CloseStatement failedInsertWorld 0).world 0 = false ∧
      (collectProxy (CloseStatement failedInsertWorld 0).world 0).stderr
        = [.notClosedBeforeGc] ∧
      finalizeCallsOf (collectProxy (CloseStatement failedInsertWorld 0).world 0) 0 = 2 := by
  decide

/-- Claim C8, failing input: `Close` on the session of `nineWorld`, which has nine open
statements.  Line 108 asks `sqlite3_next_stmt` with the statement line 109 finalized in the
turn before; the eighth such read finds no next statement, so the loop ends having finalized
and counted eight: the warning says 8, the oldest statement is still open, `sqlite3_close`
answers `SQLITE_BUSY` and `Close` raises with the connection still open. -/
theorem Close_nine_statements_stops_at_eight :
    openCount nineWorld 0 = 9 ∧
      (closeLoop 0 10 nineWorld none 0).map (fun r => r.2) = some 8 ∧
      (Close 10 nineWorld 0).map (fun o => o.world.stderr) = some [.statementsStillOpen 8] ∧
      (Close 10 nineWorld 0).map (fun o => openCount o.world 0) = some 1 ∧
      (Close 10 nineWorld 0).map (fun o => isLive o.world 0) = some true ∧
      (Close 10 nineWorld 0).bind Outcome.failure = some (.sqliteException
        "unable to close due to unfinalized statements or unfinished backups") := by
  decide

/-- Claim C9, failing input: the compile succeeds and the host refuses the weak handle.
`PrepareStatement` raises, and the statement it compiled is still open on the session, never
finalized, and its peer not freed. -/
theorem PrepareStatement_refused_leaves_statement_open :
    (sqlite3_prepare_v2 refusingWorld 0 (Dart_StringToCString (ascii "SELECT ?"))
        (toCInt (strlen (Dart_StringToCString (ascii "SELECT ?"))))).2.1 = 0 ∧
      (PrepareStatement refusingWorld 0 (ascii "SELECT ?") 7).failure
        = some (.sqliteException "invalid argument") ∧
      openCount refusingWorld 0 = 0 ∧
      openCount (PrepareStatement refusingWorld 0 (ascii "SELECT ?") 7).world 0 = 1 ∧
      finalizeCallsOf (PrepareStatement refusingWorld 0 (ascii "SELECT ?") 7).world 0 = 0 ∧
      isFreed (PrepareStatement refusingWorld 0 (ascii "SELECT ?") 7).world 0 = false := by
  decide

/-- Claim C10 at `insertWorld`: the step answers `SQLITE_CONSTRAINT`. -/
theorem Step_error_status_witness :
    Step 1 insertWorld 0
      = some (.throw (afterSteps 0 1 insertWorld)
          (.sqliteException (sqlite3_errmsg (afterSteps 0 1 insertWorld) 0))) ∧
      sqlite3_errmsg (afterSteps 0 1 insertWorld) 0 = "UNIQUE constraint failed: t.x" :=
  ⟨Step_error_status insertWorld 0 { db := 0, stmt := 0, finalizer := some 0, freed := false }
      { db := 0, shape := insertShape, bindings := [], pc := 0, current := [], rc := 0,
        live := true, bindCalls := 0, finalizeCalls := 0 }
      0 1 (by decide) rfl (by decide) (by decide) (by decide) (by decide) (by decide),
    by decide⟩

end DartSqlite
